import Mathlib

/-!
Verification of `bin/boinc2docker_create_work.py`: a shallow embedding of the
script's orchestration logic (memory estimation, image-id resolution with
pull-and-retry, shell-argument escaping, input-file accumulation and
repackaging, work-unit template generation, and the try/except/finally
control flow), together with theorems settling the specification's claims.
-/

namespace Boinc2Docker

/-! ### Python string primitives used by the script -/

/-- Whitespace characters stripped by Python's `str.strip()`. -/
def pyWhitespace : List Char := [' ', '\t', '\n', '\r', '\x0b', '\x0c']

/-- Python `s.strip()`: remove leading and trailing whitespace. -/
def pyStrip (s : String) : String :=
  String.mk
    (((s.data.dropWhile (pyWhitespace.contains ·)).reverse.dropWhile
      (pyWhitespace.contains ·)).reverse)

/-- Python `needle in hay` on strings: substring containment. -/
def pyIn (needle hay : String) : Bool :=
  decide (needle.data <:+: hay.data)

/-- Python `os.path.basename`: the component after the last slash. -/
def pyBasename (p : String) : String :=
  (p.splitOn "/").getLastD ""

/-! ### Memory estimator (`memory_check`, lines 292-307)

Console output is modelled as a list of structured messages; numeric values
are rationals, mirroring the Python float arithmetic `4*imagesize + 500`. -/

/-- Messages `memory_check` may print (only when `verbose`). -/
inductive MemMsg
  | autoSet (need : ℚ)
  | lowWarning (memory need : ℚ)
deriving DecidableEq

/-- `memory_check(imagesize, memory, verbose)`: `need = 4*imagesize + 500`;
returns `need` when no override is given, otherwise the override unchanged,
warning (when verbose) if the override is below `need`. -/
def memory_check (imagesize : ℚ) (memory : Option ℚ) (verbose : Bool) :
    ℚ × List MemMsg :=
  let need : ℚ := 4 * imagesize + 500
  match memory with
  | none => (need, if verbose then [MemMsg.autoSet need] else [])
  | some m =>
    if m < need then (m, if verbose then [MemMsg.lowWarning m need] else [])
    else (m, [])

/-- C2: with no memory override, `memory_check` returns exactly `4*S + 500`. -/
theorem memory_check_no_override (S : ℚ) (verbose : Bool) :
    (memory_check S none verbose).1 = 4 * S + 500 := by
  simp [memory_check]

/-- C3: with an override `M`, `memory_check` returns `M` unchanged in every
case, and when `M` is below the computed minimum `4*S + 500` it emits the
low-memory warning (in verbose mode) rather than raising the value. -/
theorem memory_check_override_unchanged (S M : ℚ) (verbose : Bool) :
    (memory_check S (some M) verbose).1 = M ∧
    (M < 4 * S + 500 →
      (memory_check S (some M) true).2 = [MemMsg.lowWarning M (4 * S + 500)]) := by
  constructor
  · by_cases h : M < 4 * S + 500 <;> simp [memory_check, h]
  · intro h
    simp [memory_check, h]

/-- Witness for C3 at `S = 100`, `M = 200` (below the minimum `900`). -/
theorem memory_check_override_unchanged_witness :
    (memory_check 100 (some 200) true).1 = 200 ∧
    (memory_check 100 (some 200) true).2 =
      [MemMsg.lowWarning 200 (4 * 100 + 500)] :=
  ⟨(memory_check_override_unchanged 100 200 true).1,
   (memory_check_override_unchanged 100 200 true).2 (by norm_num)⟩

/-! ### Work-unit input template generation (lines 252-263)

After the line-217 repackaging, each input file is
`(open_name, (physical_name, contents), flags)`.  The template loop
enumerates this final sequence, emitting one `file_info` (with `number` and
flag tags) and one `file_ref` (with `file_number`, `open_name`, `copy_file`)
per file. -/

/-- A packaged input file: `(open_name, (physical_name, contents), flags)`. -/
structure PackagedFile where
  open_name : String
  physical : String × String
  flags : List String
deriving DecidableEq

/-- A `file_ref` element of the generated template. -/
structure FileRef where
  file_number : String
  open_name : String
  copy_file : Bool
deriving DecidableEq

/-- A `file_info` element of the generated template. -/
structure FileInfo where
  number : String
  flags : List String
deriving DecidableEq

/-- The template's elements, generated by `for i,(open_name,_,flags) in
enumerate(input_files)` starting the counter at `k`. -/
def makeFileEntries : Nat → List PackagedFile → List FileInfo × List FileRef
  | _, [] => ([], [])
  | k, f :: rest =>
    let tail := makeFileEntries (k + 1) rest
    (⟨toString k, f.flags⟩ :: tail.1, ⟨toString k, f.open_name, true⟩ :: tail.2)

/-- The generated input template: `file_info` elements under the root and
`file_ref` elements under the `workunit` element, enumerated from 0. -/
def makeInputTemplate (files : List PackagedFile) :
    List FileInfo × List FileRef :=
  makeFileEntries 0 files

theorem makeFileEntries_refs_get? (files : List PackagedFile) :
    ∀ k i, (makeFileEntries k files).2.get? i =
      (files.get? i).map (fun f => ⟨toString (k + i), f.open_name, true⟩) := by
  induction files with
  | nil => intro k i; simp [makeFileEntries]
  | cons f rest ih =>
    intro k i
    cases i with
    | zero => simp [makeFileEntries]
    | succ j =>
      have h := ih (k + 1) j
      simpa [makeFileEntries, Nat.add_assoc, Nat.add_comm 1 j] using h

/-- C1: in the generated work-unit input template, for every index `i`
below the length of the final input-file sequence, the `i`-th `file_ref`
carries `file_number` text equal to the decimal rendering of `i` and
`open_name` text equal to the logical open name of the `i`-th packaged
input file. -/
theorem template_fileref_indices (files : List PackagedFile) (i : Nat)
    (h : i < files.length) :
    ∃ f : PackagedFile, files.get? i = some f ∧
      (makeInputTemplate files).2.get? i =
        some ⟨toString i, f.open_name, true⟩ := by
  rcases List.get?_eq_get h with hf
  refine ⟨files.get ⟨i, h⟩, hf, ?_⟩
  have := makeFileEntries_refs_get? files 0 i
  simp only [makeInputTemplate, this, hf, Nat.zero_add, Option.map_some']

/-- Witness for C1 on a concrete two-file sequence at index 1. -/
theorem template_fileref_indices_witness :
    ∃ f : PackagedFile,
      [({ open_name := "vbox_job.xml", physical := ("vbox_job.xml", "x"),
          flags := [] } : PackagedFile),
       { open_name := "shared/boinc_app", physical := ("boinc_app", "y"),
          flags := [] }].get? 1 = some f ∧
      (makeInputTemplate
        [{ open_name := "vbox_job.xml", physical := ("vbox_job.xml", "x"),
           flags := [] },
         { open_name := "shared/boinc_app", physical := ("boinc_app", "y"),
           flags := [] }]).2.get? 1 =
        some ⟨toString 1, f.open_name, true⟩ :=
  template_fileref_indices _ 1 (by decide)

/-! ### Image-id resolution with pull-and-retry (lines 81-90)

External commands are modelled by their observable results.
`get_image_id` runs `docker inspect`, strips the output and takes
`split(':')[1]`; a failing command surfaces as `CalledProcessError`
carrying the captured output, a missing `:` as `IndexError`. -/

/-- Result of one external command: captured stdout+stderr either way. -/
inductive CmdResult
  | ok (out : String)
  | err (output : String)
deriving DecidableEq

/-- Python exceptions relevant to the lookup. -/
inductive PyExc
  | calledProcessError (output : String)
  | indexError
deriving DecidableEq

/-- `get_image_id()`: `sh('docker inspect ...').strip().split(':')[1]`,
given the inspect command's result. -/
def get_image_id (r : CmdResult) : Except PyExc String :=
  match r with
  | CmdResult.ok out =>
    match ((pyStrip out).splitOn ":").get? 1 with
    | some id => Except.ok id
    | none => Except.error PyExc.indexError
  | CmdResult.err o => Except.error (PyExc.calledProcessError o)

/-- Trace of the image-resolution block: how many `docker pull`s were
attempted, how many id lookups ran, and the final value or exception. -/
structure ResolveTrace where
  pullAttempts : Nat
  lookupAttempts : Nat
  result : Except PyExc String

/-- Lines 82-90: try the lookup; on `CalledProcessError` whose output
contains `'No such image'`, pull and retry the lookup once (a failing pull
propagates); any other failure is re-raised with no pull and no retry. -/
def resolveImage (r1 pullRes r2 : CmdResult) : ResolveTrace :=
  match get_image_id r1 with
  | Except.ok id => ⟨0, 1, Except.ok id⟩
  | Except.error e =>
    match e with
    | PyExc.calledProcessError o =>
      if pyIn "No such image" o then
        match pullRes with
        | CmdResult.err po => ⟨1, 1, Except.error (PyExc.calledProcessError po)⟩
        | CmdResult.ok _ => ⟨1, 2, get_image_id r2⟩
      else ⟨0, 1, Except.error e⟩
    | PyExc.indexError => ⟨0, 1, Except.error e⟩

/-- C5: when the initial lookup fails with output containing
`'No such image'`, the program pulls (one pull attempt) and retries the
lookup exactly once, the outcome being that of the second lookup; when the
failing output does not indicate a missing image, the error is re-raised
with no pull and no second lookup. -/
theorem image_lookup_pull_retry (o pout : String) (r2 : CmdResult) :
    (pyIn "No such image" o = true →
      resolveImage (CmdResult.err o) (CmdResult.ok pout) r2 =
        ⟨1, 2, get_image_id r2⟩) ∧
    (pyIn "No such image" o = false →
      ∀ p : CmdResult, resolveImage (CmdResult.err o) p r2 =
        ⟨0, 1, Except.error (PyExc.calledProcessError o)⟩) := by
  constructor
  · intro h
    simp [resolveImage, get_image_id, h]
  · intro h p
    simp [resolveImage, get_image_id, h]

/-- Witness for C5: a missing-image error pulls and retries; a permission
error is re-raised untouched. -/
theorem image_lookup_pull_retry_witness :
    resolveImage (CmdResult.err "Error: No such image: foo")
        (CmdResult.ok "") (CmdResult.ok "sha256:abc") =
      ⟨1, 2, get_image_id (CmdResult.ok "sha256:abc")⟩ ∧
    resolveImage (CmdResult.err "permission denied") (CmdResult.ok "")
        (CmdResult.ok "sha256:abc") =
      ⟨0, 1, Except.error (PyExc.calledProcessError "permission denied")⟩ :=
  ⟨(image_lookup_pull_retry "Error: No such image: foo" ""
      (CmdResult.ok "sha256:abc")).1 (by decide),
   (image_lookup_pull_retry "permission denied" ""
      (CmdResult.ok "sha256:abc")).2 (by decide) (CmdResult.ok "")⟩

/-! ### sshgrid extension (lines 138-180)

Lines 160-161 bind `client_pub`, `client_priv` and `server_priv` (the first
component of the second keypair is discarded into `_`).  Lines 171-173 then
append three input files, the third referencing the name `server_pub`,
which is bound nowhere in the function; evaluating it raises `NameError`.
We model the local-name environment explicitly and run the appends in
source order, stopping at the first unresolvable name. -/

/-- The local names bound before the sshgrid appends (line 160-161). -/
def sshgridEnv (client_pub client_priv server_priv : String) :
    String → Option String := fun n =>
  if n = "client_pub" then some client_pub
  else if n = "client_priv" then some client_priv
  else if n = "server_priv" then some server_priv
  else none

/-- The three appends of lines 171-173 as `(open_name, variable name)`. -/
def sshgridAppendPlan : List (String × String) :=
  [("shared/id_rsa", "client_priv"),
   ("shared/id_rsa.pub", "client_pub"),
   ("shared/authorized_keys", "server_pub")]

/-- Run a sequence of appends left to right; each evaluates its variable in
the environment, and an unresolvable name raises `NameError` (returned as
the second component), keeping only the appends made before it. -/
def runAppends (env : String → Option String) :
    List (String × String) → List (String × String) × Option String
  | [] => ([], none)
  | (o, v) :: rest =>
    match env v with
    | none => ([], some v)
    | some val =>
      let tail := runAppends env rest
      ((o, val) :: tail.1, tail.2)

/-- The input files the sshgrid block manages to append, with the raised
`NameError` name, for given generated key material. -/
def sshgridInject (client_pub client_priv server_priv : String) :
    List (String × String) × Option String :=
  runAppends (sshgridEnv client_pub client_priv server_priv) sshgridAppendPlan

theorem sshgridInject_eq (client_pub client_priv server_priv : String) :
    sshgridInject client_pub client_priv server_priv =
      ([("shared/id_rsa", client_priv), ("shared/id_rsa.pub", client_pub)],
       some "server_pub") := by
  simp [sshgridInject, sshgridAppendPlan, runAppends, sshgridEnv]

/-- C6 (code bug): for every generated key material, the sshgrid block
appends `shared/id_rsa` (client private key) and `shared/id_rsa.pub`
(client public key) and then raises `NameError` on the unbound name
`server_pub`, so `shared/authorized_keys` is never appended. -/
theorem sshgrid_server_pub_name_error
    (client_pub client_priv server_priv : String) :
    sshgridInject client_pub client_priv server_priv =
      ([("shared/id_rsa", client_priv), ("shared/id_rsa.pub", client_pub)],
       some "server_pub") :=
  sshgridInject_eq client_pub client_priv server_priv

/-! ### Top-level control flow (lines 76-277) and `__main__` (355-365)

The `try` body's outcome is abstracted to its observable result: a normal
return with the new work-unit id, or one of the exceptions the handlers
distinguish.  `except KeyboardInterrupt` prints a notice; `except
CalledProcessError` prints the stripped captured output; both fall through
(returning `None`).  Any other exception is re-raised.  The `finally` block
always runs `rm -rf tmpdir` inside an inner `try` whose bare `except`
swallows a removal failure. -/

/-- Exceptions escaping the `try` body. -/
inductive Exc
  | keyboardInterrupt
  | calledProcessError (output : String)
  | other (name : String)
deriving DecidableEq

/-- Observable result of one invocation of `boinc2docker_create_work`. -/
structure RunResult where
  returned : Option String
  raised : Option Exc
  printed : List String
  cleanupInvoked : Bool
  tmpdirRemoved : Bool
deriving DecidableEq

/-- The two `except` clauses (lines 268-271): what is printed, and whether
the exception is re-raised past the top level. -/
def handleExc : Exc → Option Exc × List String
  | Exc.keyboardInterrupt => (none, ["Cleaning up temporary files..."])
  | Exc.calledProcessError o => (none, [pyStrip o])
  | Exc.other n => (some (Exc.other n), [])

/-- The `finally` block (lines 272-277): the removal command is always
invoked; if it fails the inner bare `except` swallows the error and the
directory is left behind. Returns (invoked, removed). -/
def finallyCleanup (rmOk : Bool) : Bool × Bool := (true, rmOk)

/-- One invocation of `boinc2docker_create_work`, given the body's outcome
and whether the `rm -rf` in the `finally` block succeeds. -/
def boinc2docker_create_work (body : Except Exc String) (rmOk : Bool) :
    RunResult :=
  let handled : Option String × Option Exc × List String :=
    match body with
    | Except.ok wu => (some wu, none, [])
    | Except.error e =>
      let h := handleExc e
      (none, h.1, h.2)
  let fin := finallyCleanup rmOk
  ⟨handled.1, handled.2.1, handled.2.2, fin.1, fin.2⟩

/-- `__main__` (line 365): `if wu is not None: print wu`. -/
def mainPrintedWU (r : RunResult) : List String :=
  match r.returned with
  | some wu => [wu]
  | none => []

/-- C7: on every exit path of `boinc2docker_create_work` — normal return,
`KeyboardInterrupt`, `CalledProcessError`, or any other exception — the
`finally` block invokes removal of the scratch directory, and when the
removal command succeeds (the behaviour of `rm -rf` on the directory the
run created) the directory is absent afterwards. -/
theorem tmpdir_cleanup_all_paths (body : Except Exc String) (rmOk : Bool) :
    (boinc2docker_create_work body rmOk).cleanupInvoked = true ∧
    (boinc2docker_create_work body true).tmpdirRemoved = true := by
  cases body <;> simp [boinc2docker_create_work, finallyCleanup]

/-- C8: a `CalledProcessError` from an external command is caught at the
top level: the stripped captured output is printed, cleanup is still
invoked, nothing is re-raised, the call returns `None`, and `__main__`
prints no work-unit identifier. -/
theorem called_process_error_handling (o : String) (rmOk : Bool) :
    (boinc2docker_create_work (Except.error (Exc.calledProcessError o))
        rmOk).printed = [pyStrip o] ∧
    (boinc2docker_create_work (Except.error (Exc.calledProcessError o))
        rmOk).raised = none ∧
    (boinc2docker_create_work (Except.error (Exc.calledProcessError o))
        rmOk).returned = none ∧
    (boinc2docker_create_work (Except.error (Exc.calledProcessError o))
        rmOk).cleanupInvoked = true ∧
    mainPrintedWU (boinc2docker_create_work
        (Except.error (Exc.calledProcessError o)) rmOk) = [] := by
  simp [boinc2docker_create_work, handleExc, finallyCleanup, mainPrintedWU]

/-! ### Layer packaging skip condition (lines 224-237)

Line 231: `if force_reimport or (need_extract and not exists(layer_path)):`
guards the `tar`+`gzip` of a layer into the download hierarchy. -/

/-- Whether the code re-archives and recompresses a layer (line 231). -/
def layerRecompressed (force_reimport need_extract layer_exists : Bool) :
    Bool :=
  force_reimport || (need_extract && !layer_exists)

/-- The claim's predicate: recompress unless the layer file exists and the
image was served from the existence-check cache with no force and no
re-extraction. -/
def claimedLayerRecompressed (force_reimport need_extract layer_exists : Bool) :
    Bool :=
  !(layer_exists && !force_reimport && !need_extract)

/-- C9 counterexample: with `force_reimport = false`, `need_extract = true`
and the target layer file already present, the code skips recompression
while the claim's predicate demands it. -/
theorem layer_skip_iff_counterexample :
    layerRecompressed false true true = false ∧
    claimedLayerRecompressed false true true = true := by
  decide

/-- C9 amended: the packager skips re-archiving and recompressing a layer
exactly when `force_reimport` is off and either no re-extraction happened
(the image was served from the existence-check cache) or the target layer
file already exists in the download hierarchy; otherwise the layer is
tarred and compressed. -/
theorem layer_skip_condition (force_reimport need_extract layer_exists : Bool) :
    layerRecompressed force_reimport need_extract layer_exists = false ↔
      (force_reimport = false ∧
        (need_extract = false ∨ layer_exists = true)) := by
  revert force_reimport need_extract layer_exists
  decide

/-! ### In-place growth of the caller's `input_files` list (lines 130-241)

Python lists are passed by reference: `input_files.append(...)` at lines
130, 171-173 and 213 mutates the caller's list object, while the list
comprehension at lines 217-218 rebinds the local name to a fresh list, so
the layer appends (line 230) and the image-metadata append (line 241) grow
only the internal copy.  In sshgrid mode line 173 raises `NameError` on
`server_pub` (see `sshgridInject`) before line 213 is reached. -/

/-- A stage-one entry `(open_name, contents, flags)`. -/
abbrev Entry1 := String × String × List String

/-- Line 217's repackaging of one entry into
`(open_name, (basename(open_name), contents), flags)`. -/
def repackage (e : Entry1) : PackagedFile :=
  ⟨e.1, (pyBasename e.1, e.2.1), e.2.2⟩

/-- The effect of lines 109-241 on the two list objects: returns the
caller's list after the call, the rebound internal list when execution gets
that far, and the name of a raised `NameError` if any.  `vbox` and `script`
are the rendered `vbox_job.xml` and `shared/boinc_app` contents;
`layerEntries` and `imageEntry` are the packaged-layer and image-metadata
entries appended after the rebinding. -/
def createWorkInputLists (orig : List Entry1) (sshgrid : Bool)
    (vbox script client_pub client_priv server_priv : String)
    (layerEntries : List PackagedFile) (imageEntry : PackagedFile) :
    List Entry1 × Option (List PackagedFile) × Option String :=
  let afterVbox := orig ++ [("vbox_job.xml", vbox, [])]
  if sshgrid then
    let inj := sshgridInject client_pub client_priv server_priv
    let afterSsh := afterVbox ++ inj.1.map (fun p => (p.1, p.2, ([] : List String)))
    match inj.2 with
    | some n => (afterSsh, none, some n)
    | none =>
      let afterScript := afterSsh ++ [("shared/boinc_app", script, [])]
      (afterScript,
       some (afterScript.map repackage ++ layerEntries ++ [imageEntry]),
       none)
  else
    let afterScript := afterVbox ++ [("shared/boinc_app", script, [])]
    (afterScript,
     some (afterScript.map repackage ++ layerEntries ++ [imageEntry]),
     none)

/-- C10 counterexample: in sshgrid mode the caller's list grows only by the
`vbox_job.xml`, `shared/id_rsa` and `shared/id_rsa.pub` tuples — the
`shared/boinc_app` tuple (and `shared/authorized_keys`) is never appended,
because the call aborts with `NameError` on `server_pub`. -/
theorem input_files_mutation_counterexample :
    (createWorkInputLists [] true "V" "S" "PUB" "PRIV" "SPRIV" []
        ⟨"shared/image/i", ("i", "c"), []⟩).1 =
      [("vbox_job.xml", "V", []), ("shared/id_rsa", "PRIV", []),
       ("shared/id_rsa.pub", "PUB", [])] ∧
    (createWorkInputLists [] true "V" "S" "PUB" "PRIV" "SPRIV" []
        ⟨"shared/image/i", ("i", "c"), []⟩).2.2 = some "server_pub" := by
  constructor <;> rfl

/-- C10 amended: the caller's non-None `input_files` list is mutated in
place by the appends that precede the line-217 rebinding.  Outside sshgrid
mode it grows by exactly the `vbox_job.xml` tuple and the
`shared/boinc_app` tuple, and the layer and image-metadata entries extend
only the rebound internal copy; in sshgrid mode it grows by the
`vbox_job.xml`, `shared/id_rsa` and `shared/id_rsa.pub` tuples and the call
then raises `NameError` on `server_pub` before `shared/authorized_keys` or
`shared/boinc_app` can be appended. -/
theorem input_files_caller_mutation (orig : List Entry1)
    (vbox script client_pub client_priv server_priv : String)
    (layerEntries : List PackagedFile) (imageEntry : PackagedFile) :
    (createWorkInputLists orig false vbox script client_pub client_priv
        server_priv layerEntries imageEntry).1 =
      orig ++ [("vbox_job.xml", vbox, []), ("shared/boinc_app", script, [])] ∧
    (createWorkInputLists orig false vbox script client_pub client_priv
        server_priv layerEntries imageEntry).2.1 =
      some (((orig ++ [("vbox_job.xml", vbox, []),
          ("shared/boinc_app", script, [])]).map repackage)
        ++ layerEntries ++ [imageEntry]) ∧
    (createWorkInputLists orig true vbox script client_pub client_priv
        server_priv layerEntries imageEntry).1 =
      orig ++ [("vbox_job.xml", vbox, []), ("shared/id_rsa", client_priv, []),
        ("shared/id_rsa.pub", client_pub, [])] ∧
    (createWorkInputLists orig true vbox script client_pub client_priv
        server_priv layerEntries imageEntry).2.2 = some "server_pub" := by
  refine ⟨?_, ?_, ?_, ?_⟩ <;>
    simp [createWorkInputLists, sshgridInject_eq]

/-! ### Shell-argument escaping (`escape_string`, lines 310-315)

`escape_string` runs `bash -c 'printf "%q" "$@"' _ s` and returns the
output verbatim.  The quoting performed by bash `printf %q` lives in bash,
an external collaborator of this repository, so it is modelled here from
its documented behaviour on strings of printable ASCII characters: the
empty string becomes `''`; otherwise every shell-special character is
backslash-escaped, with `#` and `~` additionally escaped in the first
position (strings containing nonprinting characters switch to `$'...'`
quoting, which is outside this model's hypothesis).  A word parser for the
POSIX shell constructs involved then states the round-trip. -/

/-- Characters bash `printf %q` backslash-escapes at every position. -/
def bashAlwaysQuoted : List Char :=
  [' ', '!', '"', '$', '&', '\'', '(', ')', '*', ',', ';', '<', '>', '?',
   '[', '\\', ']', '^', '`', '{', '|', '}']

/-- Characters bash `printf %q` escapes only in the first position. -/
def bashStartQuoted : List Char := ['#', '~']

/-- Quoting of one non-initial character. -/
def quoteRestChar (c : Char) : List Char :=
  if c ∈ bashAlwaysQuoted then ['\\', c] else [c]

/-- Quoting of the initial character. -/
def quoteFirstChar (c : Char) : List Char :=
  if c ∈ bashAlwaysQuoted ∨ c ∈ bashStartQuoted then ['\\', c] else [c]

/-- bash `printf %q` on a printable-ASCII character sequence. -/
def printfQList : List Char → List Char
  | [] => ['\'', '\'']
  | c :: rest => quoteFirstChar c ++ rest.flatMap quoteRestChar

/-- Modelled from the spec: `escape_string` delegates the quoting to
`bash -c 'printf "%q" "$@"' _ s`, external to this repository; this is its
output on printable-ASCII input, returned verbatim (no trailing newline).
-/
def escape_string (s : String) : String :=
  String.mk (printfQList s.data)

/-- Printable ASCII (space through tilde). -/
def isPrintableAscii (c : Char) : Bool := 31 < c.toNat && c.toNat < 127

/-- Characters that keep a special meaning when unquoted in a POSIX shell
word (field separators, operators, expansion and globbing introducers);
quote characters and the backslash are handled structurally by the parser.
-/
def posixWordSpecial : List Char :=
  [' ', '|', '&', ';', '<', '>', '(', ')', '$', '`', '*', '?', '[']

/-- POSIX shell processing of one word: yields the literal string the word
expands to, or `none` when the word is not a single literal token (an
unquoted special character, an unterminated quote, or a construct outside
the backslash/single-quote fragment this model covers).  The flag records
whether the parser is inside single quotes. -/
def parseSh : Bool → List Char → Option (List Char)
  | true, [] => none
  | true, c :: rest =>
    if c = '\'' then parseSh false rest
    else (parseSh true rest).map (c :: ·)
  | false, [] => some []
  | false, c :: rest =>
    if c = '\\' then
      match rest with
      | [] => none
      | d :: t => (parseSh false t).map (d :: ·)
    else if c = '\'' then parseSh true rest
    else if c = '"' then none
    else if isPrintableAscii c = false then none
    else if c ∈ posixWordSpecial then none
    else (parseSh false rest).map (c :: ·)

/-- A whole word: a leading unquoted `#` starts a comment and a leading
unquoted `~` triggers tilde expansion, so neither yields the literal word.
-/
def parseShellWord (w : String) : Option (List Char) :=
  if w.data.head? = some '#' ∨ w.data.head? = some '~' then none
  else parseSh false w.data

theorem mem_posix_mem_bash {c : Char} (h : c ∈ posixWordSpecial) :
    c ∈ bashAlwaysQuoted := by
  fin_cases h <;> decide

theorem parseSh_backslash (d : Char) (t : List Char) :
    parseSh false ('\\' :: d :: t) = (parseSh false t).map (d :: ·) := by
  simp [parseSh]

theorem parseSh_plain {c : Char} (t : List Char)
    (hp : isPrintableAscii c = true) (hb : c ∉ bashAlwaysQuoted) :
    parseSh false (c :: t) = (parseSh false t).map (c :: ·) := by
  have h1 : ¬(c = '\\') := fun h => hb (h ▸ (by decide))
  have h2 : ¬(c = '\'') := fun h => hb (h ▸ (by decide))
  have h3 : ¬(c = '"') := fun h => hb (h ▸ (by decide))
  have h4 : c ∉ posixWordSpecial := fun h => hb (mem_posix_mem_bash h)
  rw [parseSh.eq_def]
  simp [h1, h2, h3, h4, hp]

theorem parseSh_bind_quoteRest (cs : List Char)
    (h : ∀ c ∈ cs, isPrintableAscii c = true) :
    parseSh false (cs.flatMap quoteRestChar) = some cs := by
  induction cs with
  | nil => simp [parseSh]
  | cons c t ih =>
    have hc : isPrintableAscii c = true := h c (List.mem_cons_self c t)
    have ht : ∀ x ∈ t, isPrintableAscii x = true :=
      fun x hx => h x (List.mem_cons_of_mem c hx)
    by_cases hb : c ∈ bashAlwaysQuoted
    · simp only [List.flatMap_cons, quoteRestChar, if_pos hb, List.cons_append,
        List.nil_append]
      rw [parseSh_backslash, ih ht]
      rfl
    · simp only [List.flatMap_cons, quoteRestChar, if_neg hb, List.cons_append,
        List.nil_append]
      rw [parseSh_plain (t.flatMap quoteRestChar) hc hb, ih ht]
      rfl

/-- C4: escaping round-trips.  For every string of printable ASCII
characters — in particular any such string containing shell metacharacters
(spaces, quotes, `$`, `;`) — feeding `escape_string s` to a POSIX shell as
a word yields the original literal string `s` as a single argument. -/
theorem escape_string_roundtrip (s : String)
    (h : ∀ c ∈ s.data, isPrintableAscii c = true) :
    parseShellWord (escape_string s) = some s.data := by
  show parseShellWord (String.mk (printfQList s.data)) = some s.data
  rcases hs : s.data with _ | ⟨c, t⟩
  · rfl
  · rw [hs] at h
    have hc : isPrintableAscii c = true := h c (List.mem_cons_self c t)
    have ht : ∀ x ∈ t, isPrintableAscii x = true :=
      fun x hx => h x (List.mem_cons_of_mem c hx)
    by_cases hq : c ∈ bashAlwaysQuoted ∨ c ∈ bashStartQuoted
    · have hdata : printfQList (c :: t) = '\\' :: c :: t.flatMap quoteRestChar := by
        simp [printfQList, quoteFirstChar, if_pos hq]
      rw [parseShellWord, hdata]
      have hcond : ¬(('\\' :: c :: t.flatMap quoteRestChar).head? = some '#' ∨
          ('\\' :: c :: t.flatMap quoteRestChar).head? = some '~') := by
        simp
      rw [if_neg hcond, parseSh_backslash, parseSh_bind_quoteRest t ht]
      rfl
    · push_neg at hq
      obtain ⟨hb, hstart⟩ := hq
      have hnh : ¬(c = '#') := fun hcc => hstart (hcc ▸ (by decide))
      have hnt : ¬(c = '~') := fun hcc => hstart (hcc ▸ (by decide))
      have hdata : printfQList (c :: t) = c :: t.flatMap quoteRestChar := by
        simp [printfQList, quoteFirstChar, hb, hstart]
      rw [parseShellWord, hdata]
      have hcond : ¬((c :: t.flatMap quoteRestChar).head? = some '#' ∨
          (c :: t.flatMap quoteRestChar).head? = some '~') := by
        simp [hnh, hnt]
      rw [if_neg hcond, parseSh_plain (t.flatMap quoteRestChar) hc hb,
        parseSh_bind_quoteRest t ht]
      rfl

/-- Witness for C4 on a string with a space, a double quote, a dollar sign
and a semicolon. -/
theorem escape_string_roundtrip_witness :
    parseShellWord (escape_string "a b\"$;x") = some "a b\"$;x".data :=
  escape_string_roundtrip "a b\"$;x" (by decide)

end Boinc2Docker
